import Mathlib

set_option maxRecDepth 8192

/-!
Formal model of the Loop hospital-network assistant (`src/server.js`).

Strings of the JavaScript source are modelled as lists of characters
(`Str := List Char`); the regular expressions used by the local fallback
parser are modelled by a small backtracking matcher (`matchRE`) that follows
the JavaScript regex semantics for the constructs the source actually uses:
case-insensitive literals, the classes `\s`, `[a-z\s]`, `[?.!]` and `.`,
lazy `+?`, greedy `+`, optional groups, alternation tried left to right,
the end anchor `$`, and leftmost-match search.  The one capture group of
each source pattern is always a lazy plus of a character class, which the
matcher records directly.
-/

/-- Strings of the JavaScript source, modelled as lists of characters. -/
abbrev Str := List Char

/-- JavaScript whitespace: the set matched by the regex class `\s` and
removed by `String.prototype.trim`. -/
def isWs (c : Char) : Bool :=
  [9, 10, 11, 12, 13, 32, 160, 5760, 8232, 8233, 8239, 8287, 12288, 65279].contains c.toNat
    || (decide (8192 ≤ c.toNat) && decide (c.toNat ≤ 8202))

/-- `String.prototype.trim`. -/
def jsTrim (s : Str) : Str :=
  ((s.dropWhile isWs).reverse.dropWhile isWs).reverse

/-- `hay.includes(needle)` of JavaScript: substring test. -/
def jsIncludes : Str → Str → Bool
  | [], needle => needle.isPrefixOf []
  | c :: rest, needle => needle.isPrefixOf (c :: rest) || jsIncludes rest needle

/-- `String.prototype.toLowerCase` (the source only feeds it ASCII text). -/
def jsToLower (s : Str) : Str := s.map Char.toLower

/-- `String.prototype.toUpperCase` (the source only feeds it ASCII text). -/
def jsToUpper (s : Str) : Str := s.map Char.toUpper

/-- `c.charAt(0).toUpperCase() + c.slice(1)` — capitalisation used by the
known-city fallback of `naiveParse`. -/
def capitalizeFirst : Str → Str
  | [] => []
  | c :: rest => Char.toUpper c :: rest

/-- Decimal rendering of a number, as JavaScript template interpolation
prints a nonnegative integer. -/
def natToStr (n : Nat) : Str := Nat.toDigits 10 n

/-- `Array.prototype.join(sep)`. -/
def joinSep (sep : Str) : List Str → Str
  | [] => []
  | [x] => x
  | x :: xs => x ++ sep ++ joinSep sep xs

/-- Helper for `String.prototype.split(/\s+/)`: walks the string keeping the
current field (reversed) and whether the previous character was whitespace. -/
def splitFieldsAux (prevWs : Bool) (cur : Str) : Str → List Str
  | [] => [cur.reverse]
  | c :: rest =>
    if isWs c then
      if prevWs then splitFieldsAux true cur rest
      else cur.reverse :: splitFieldsAux true [] rest
    else splitFieldsAux false (c :: cur) rest

/-- `s.split(/\s+/)` of JavaScript. -/
def splitWs (s : Str) : List Str := splitFieldsAux false [] s

/-- `s.slice(0, limit)` of JavaScript on arrays: a negative end index counts
from the end of the array. -/
def jsSliceTo (l : List α) (e : Int) : List α :=
  if e < 0 then l.take (l.length - e.natAbs) else l.take e.toNat

/-- The character class `[?.!]` of the source patterns. -/
def punctCls (c : Char) : Bool := c == '?' || c == '.' || c == '!'

/-- The class `[a-z\s]` under the `/i` flag: ASCII letters of either case,
or whitespace. -/
def azWsCls (c : Char) : Bool :=
  (decide ('a' ≤ c.toLower) && decide (c.toLower ≤ 'z')) || isWs c

/-- The regex `.`: any character except line terminators. -/
def dotCls (c : Char) : Bool :=
  !([10, 13, 8232, 8233].contains c.toNat)

/-- Abstract syntax of the regular-expression fragment used in
`src/server.js`.  Every capture group of the source is a lazy plus of a
character class, so captures are attached to that construct only. -/
inductive RE where
  | eps : RE
  | lit : Char → RE
  | cls : (Char → Bool) → RE
  | seq : RE → RE → RE
  | alt : RE → RE → RE
  | opt : RE → RE
  | plusLazy : (Char → Bool) → RE
  | plusLazyCap : (Char → Bool) → RE
  | plusGreedy : (Char → Bool) → RE
  | eos : RE

/-- Lazy `X+?` loop: consume one class character, try the continuation, and
only on failure consume further characters. -/
def lazyLoop {γ : Type} (p : Char → Bool) (k : Str → Option γ) : Str → Option γ
  | [] => none
  | c :: rest =>
    if p c then
      match k rest with
      | some r => some r
      | none => lazyLoop p k rest
    else none

/-- Lazy capturing `(X+?)` loop: like `lazyLoop` but hands the consumed
characters to the continuation. -/
def lazyLoopCap {γ : Type} (p : Char → Bool) (k : Str → Str → Option γ) (acc : Str) : Str → Option γ
  | [] => none
  | c :: rest =>
    if p c then
      match k (acc ++ [c]) rest with
      | some r => some r
      | none => lazyLoopCap p k (acc ++ [c]) rest
    else none

/-- Greedy `X+` loop: consume as many class characters as possible, then give
back characters one at a time when the continuation fails. -/
def greedyLoop {γ : Type} (p : Char → Bool) (k : Str → Option γ) : Str → Option γ
  | [] => none
  | c :: rest =>
    if p c then
      match greedyLoop p k rest with
      | some r => some r
      | none => k rest
    else none

/-- Backtracking matcher in continuation-passing style.  `cap` is the value
of the (single) capture group so far; literals compare case-insensitively,
which models the `/i` flag carried by every pattern of the source. -/
def matchRE {γ : Type} : RE → Option Str → Str → (Option Str → Str → Option γ) → Option γ
  | .eps, cap, s, k => k cap s
  | .lit c, cap, s, k =>
    match s with
    | [] => none
    | d :: rest => if d.toLower == c.toLower then k cap rest else none
  | .cls p, cap, s, k =>
    match s with
    | [] => none
    | d :: rest => if p d then k cap rest else none
  | .seq a b, cap, s, k => matchRE a cap s (fun cap2 s2 => matchRE b cap2 s2 k)
  | .alt a b, cap, s, k =>
    match matchRE a cap s k with
    | some r => some r
    | none => matchRE b cap s k
  | .opt a, cap, s, k =>
    match matchRE a cap s k with
    | some r => some r
    | none => k cap s
  | .plusLazy p, cap, s, k => lazyLoop p (fun s2 => k cap s2) s
  | .plusLazyCap p, _cap, s, k => lazyLoopCap p (fun g s2 => k (some g) s2) [] s
  | .plusGreedy p, cap, s, k => greedyLoop p (fun s2 => k cap s2) s
  | .eos, cap, s, k =>
    match s with
    | [] => k cap []
    | _ :: _ => none

/-- Attempt a match anchored at the start of `s`; the outer `Option` is
match success, the inner one the capture group. -/
def runREAt (r : RE) (s : Str) : Option (Option Str) :=
  matchRE r none s (fun cap _ => some cap)

/-- Leftmost-match search, as `String.prototype.match` performs it: try each
start position from the left. -/
def execFrom (r : RE) : Str → Option (Option Str)
  | [] => runREAt r []
  | c :: rest =>
    match runREAt r (c :: rest) with
    | some res => some res
    | none => execFrom r rest

/-- The JavaScript idiom `match && match[1]` used by both extraction loops:
produces the captured group of the leftmost match, if any. -/
def matchGroup1 (r : RE) (s : Str) : Option Str :=
  match execFrom r s with
  | some (some g) => some g
  | _ => none

/-- Concatenation of a list of regex pieces. -/
def reCat (rs : List RE) : RE := rs.foldr RE.seq RE.eps

/-- A case-insensitive literal word. -/
def reLits (s : String) : RE := (s.toList.map RE.lit).foldr RE.seq RE.eps

/-- The piece `\s+`. -/
def reWs : RE := RE.plusGreedy isWs

/-! ## The concrete patterns of `naiveParse` (src/server.js lines 134-170) -/

/-- `/in\s+([a-z\s]+?)(?:\s+is|\s+in\s+my\s+network|$)/i` -/
def cityPattern1 : RE :=
  reCat [reLits ("in"), reWs, RE.plusLazyCap azWsCls,
    RE.alt (reCat [reWs, reLits ("is")])
      (RE.alt (reCat [reWs, reLits ("in"), reWs, reLits ("my"), reWs, reLits ("network")])
        RE.eos)]

/-- `/in\s+([a-z\s]+?)(?:\s+or\s+not|$)/i` -/
def cityPattern2 : RE :=
  reCat [reLits ("in"), reWs, RE.plusLazyCap azWsCls,
    RE.alt (reCat [reWs, reLits ("or"), reWs, reLits ("not")]) RE.eos]

/-- `/in\s+([a-z\s]+?)(?:\s+[?.!]|$)/i` -/
def cityPattern3 : RE :=
  reCat [reLits ("in"), reWs, RE.plusLazyCap azWsCls,
    RE.alt (reCat [reWs, RE.cls punctCls]) RE.eos]

/-- The ordered city-extraction pattern list of `naiveParse`. -/
def cityPatterns : List RE := [cityPattern1, cityPattern2, cityPattern3]

/-- `/(?:can\s+you\s+)?confirm\s+(.+?)\s+in\s+/i` -/
def namePattern1 : RE :=
  reCat [RE.opt (reCat [reLits ("can"), reWs, reLits ("you"), reWs]),
    reLits ("confirm"), reWs, RE.plusLazyCap dotCls, reWs, reLits ("in"), reWs]

/-- `/confirm\s+if\s+(.+?)\s+in\s+/i` -/
def namePattern2 : RE :=
  reCat [reLits ("confirm"), reWs, reLits ("if"), reWs,
    RE.plusLazyCap dotCls, reWs, reLits ("in"), reWs]

/-- `/confirm\s+whether\s+(.+?)\s+in\s+/i` -/
def namePattern3 : RE :=
  reCat [reLits ("confirm"), reWs, reLits ("whether"), reWs,
    RE.plusLazyCap dotCls, reWs, reLits ("in"), reWs]

/-- `/if\s+(.+?)\s+in\s+/i` -/
def namePattern4 : RE :=
  reCat [reLits ("if"), reWs, RE.plusLazyCap dotCls, reWs, reLits ("in"), reWs]

/-- `/(.+?)\s+in\s+[a-z\s]+?\s+(?:is\s+)?in\s+my\s+network/i` -/
def namePattern5 : RE :=
  reCat [RE.plusLazyCap dotCls, reWs, reLits ("in"), reWs, RE.plusLazy azWsCls, reWs,
    RE.opt (reCat [reLits ("is"), reWs]), reLits ("in"), reWs, reLits ("my"), reWs,
    reLits ("network")]

/-- The ordered hospital-name pattern list of `naiveParse`. -/
def namePatterns : List RE := [namePattern1, namePattern2, namePattern3, namePattern4, namePattern5]

/-! ## Data model -/

/-- A row of the hospital Directory (normalised CSV record). -/
structure Hospital where
  name : Str
  address : Str
  city : Str
deriving DecidableEq

/-- The three-way intent classification plus the unclassified default
`IN_SCOPE` used by the local parser. -/
inductive Intent where
  | IN_SCOPE
  | OUT_OF_SCOPE
  | FIND_NEARBY
  | CONFIRM_IN_NETWORK
deriving DecidableEq

/-- Structured result of the Query Interpreter. -/
structure QueryInfo where
  intent : Intent
  city : Str
  hospitalName : Str
  maxResults : Int
  outOfScope : Bool
deriving DecidableEq

/-- One dialogue turn's outcome. -/
structure DialogueResult where
  reply : Str
  endConversation : Bool
deriving DecidableEq

/-! ## Lexical Matcher (src/server.js lines 53-71) -/

/-- `searchHospitalsAroundCity(city, limit)`: case-insensitive substring
match on the city field, first `limit` matches in source order; a falsy
(empty) city yields no results.  `limit` is an `Int` because JavaScript
`slice` accepts any integer. -/
def searchHospitalsAroundCity (hospitals : List Hospital) (city : Str) (limit : Int) : List Hospital :=
  if city = [] then []
  else
    let cityUpper := jsToUpper city
    let found := hospitals.filter (fun h => jsIncludes (jsToUpper h.city) cityUpper)
    jsSliceTo found limit

/-- `findHospitalInCityByName(name, city)`: case-insensitive substring match
on both fields; falsy (empty) name or city yields no results. -/
def findHospitalInCityByName (hospitals : List Hospital) (name city : Str) : List Hospital :=
  if name = [] ∨ city = [] then []
  else
    let nameUpper := jsToUpper name
    let cityUpper := jsToUpper city
    hospitals.filter (fun h =>
      jsIncludes (jsToUpper h.name) nameUpper && jsIncludes (jsToUpper h.city) cityUpper)

/-! ## Local fallback parser (src/server.js lines 78-192) -/

/-- Off-topic keyword list of `isOutOfScope`. -/
def outOfScopeKeywords : List Str :=
  (["appointment", "book", "schedule", "insurance coverage", "claim", "policy",
    "stock", "price", "weather", "joke", "recipe", "sports", "news",
    "movie", "music", "restaurant", "hotel", "flight", "travel"]).map String.toList

/-- Hospital-domain keyword list of `isOutOfScope`. -/
def hospitalKeywords : List Str :=
  (["hospital", "network", "clinic", "medical", "doctor", "nursing"]).map String.toList

/-- `isOutOfScope(userText)`.  The short-query branch of the source returns
`false` just like the final statement, and is kept for fidelity. -/
def isOutOfScope (userText : Str) : Bool :=
  let lower := jsToLower userText
  let hasHospitalKeyword := hospitalKeywords.any (fun kw => jsIncludes lower kw)
  let hasOutOfScopeKeyword := outOfScopeKeywords.any (fun kw => jsIncludes lower kw)
  if hasOutOfScopeKeyword && !hasHospitalKeyword then true
  else if (splitWs (jsTrim userText)).length < 3 && !hasHospitalKeyword then false
  else false

/-- `city = match[1].trim().replace(/[?.!]/g, '')` — punctuation removal. -/
def removePunct (s : Str) : Str := s.filter (fun c => !punctCls c)

/-- The city-extraction loop: first pattern whose match has a truthy first
group wins; its trimmed, punctuation-stripped capture is the city. -/
def extractCityLoop (userText : Str) : List RE → Str
  | [] => []
  | p :: rest =>
    match matchGroup1 p userText with
    | some g => if g ≠ [] then removePunct (jsTrim g) else extractCityLoop userText rest
    | none => extractCityLoop userText rest

/-- The known-city fallback list of `naiveParse`. -/
def knownCities : List Str :=
  (["bangalore", "delhi", "mumbai", "chennai", "kolkata", "hyderabad", "pune",
    "noida", "gurgaon", "ghaziabad", "faridabad"]).map String.toList

/-- Fallback city scan: first known city occurring in the lowercased text,
capitalised. -/
def cityFallback (lower : Str) : List Str → Str
  | [] => []
  | c :: rest => if jsIncludes lower c then capitalizeFirst c else cityFallback lower rest

/-- The trailing stray words stripped from a candidate hospital name. -/
def strayWords : List Str :=
  (["is", "are", "was", "were", "in", "the", "a", "an"]).map String.toList

/-- Does `t` match `/\s+(is|are|was|were|in|the|a|an)\s*$/i` starting at its
first character?  The `\s+` run is forced to be the maximal whitespace run
because no stray word starts with whitespace. -/
def suffixIsStray (t : Str) : Bool :=
  let ws1 := t.takeWhile isWs
  let rest := jsToLower (t.dropWhile isWs)
  ws1 ≠ [] && strayWords.any (fun w => w.isPrefixOf rest && (rest.drop w.length).all isWs)

/-- `hospitalName.replace(/\s+(is|are|was|were|in|the|a|an)\s*$/i, '')`:
remove the leftmost suffix of that shape, if any. -/
def stripTrailingStray : Str → Str
  | [] => []
  | c :: rest => if suffixIsStray (c :: rest) then [] else c :: stripTrailingStray rest

/-- Lines 175-177 of the source applied to a raw capture:
`match[1].trim()`, the stray-word replace, and the final `trim`. -/
def nameStrip (g : Str) : Str := jsTrim (stripTrailingStray (jsTrim g))

/-- The hospital-name extraction loop of `naiveParse`: a pattern match whose
stripped name is truthy and longer than 2 characters breaks the loop; a
shorter match only overwrites the running `hospitalName`. -/
def scanNames (userText : Str) : List RE → Str → Str
  | [], hospitalName => hospitalName
  | p :: rest, hospitalName =>
    match matchGroup1 p userText with
    | some g =>
      if g ≠ [] then
        let hn := nameStrip g
        if hn ≠ [] ∧ 2 < hn.length then hn else scanNames userText rest hn
      else scanNames userText rest hospitalName
    | none => scanNames userText rest hospitalName

/-- `naiveParse(userText)` — the local rule-based parser. -/
def naiveParse (userText : Str) : QueryInfo :=
  let lower := jsToLower userText
  if isOutOfScope userText then
    { intent := .OUT_OF_SCOPE, city := [], hospitalName := [], maxResults := 3, outOfScope := true }
  else
    let intent : Intent :=
      if jsIncludes lower ("around".toList) || jsIncludes lower ("near".toList)
          || jsIncludes lower ("nearby".toList) then .FIND_NEARBY
      else if jsIncludes lower ("confirm".toList) || jsIncludes lower ("in my network".toList)
          || (jsIncludes lower ("is".toList) && jsIncludes lower ("network".toList)) then
        .CONFIRM_IN_NETWORK
      else .IN_SCOPE
    let city0 := extractCityLoop userText cityPatterns
    let city := if city0 = [] then cityFallback lower knownCities else city0
    let hospitalName :=
      if intent = .CONFIRM_IN_NETWORK then scanNames userText namePatterns [] else []
    { intent := intent, city := city, hospitalName := hospitalName,
      maxResults := 3, outOfScope := false }

/-! ## Query Interpreter (src/server.js lines 194-256) -/

/-- A successfully parsed language-model response: the strict JSON schema
constrains `intent` to the three-way enum, but the invariant theorems below
do not rely on that. -/
structure LMParsed where
  intent : Intent
  city : Str
  hospitalName : Str
  maxResults : Int
deriving DecidableEq

/-- `extractQueryInfo(userText)`.  The external call is modelled by its
outcome: `none` when no API credential is configured, `some (.error e)`
when the call or the JSON parse throws (the source catches this and falls
back to `naiveParse`), `some (.ok p)` on success.  `parsed.maxResults || 3`
replaces a falsy (zero) result limit by 3. -/
def extractQueryInfo (lm : Option (Except Str LMParsed)) (userText : Str) : QueryInfo :=
  match lm with
  | none => naiveParse userText
  | some (.error _) => naiveParse userText
  | some (.ok p) =>
    { intent := p.intent, city := p.city, hospitalName := p.hospitalName,
      maxResults := if p.maxResults = 0 then 3 else p.maxResults,
      outOfScope := decide (p.intent = .OUT_OF_SCOPE) }

/-! ## Dialogue Responder (src/server.js lines 259-352) -/

/-- The heuristic upgrade of lines 272-278: an unclassified intent with a
city is promoted to `FIND_NEARBY`, with both city and hospital name to
`CONFIRM_IN_NETWORK`. -/
def upgradeIntent (info : QueryInfo) : QueryInfo :=
  if info.intent = .IN_SCOPE then
    if info.city ≠ [] ∧ info.hospitalName = [] then { info with intent := .FIND_NEARBY }
    else if info.city ≠ [] ∧ info.hospitalName ≠ [] then { info with intent := .CONFIRM_IN_NETWORK }
    else info
  else info

/-- The apostrophe character, used by the out-of-scope apology. -/
def apos : Char := Char.ofNat 39

/-- Reply of line 262: the greeting for empty input. -/
def greetingReply : Str :=
  "I am Loop AI, your hospital network assistant. How can I help you today?".toList

/-- Reply of line 282: the out-of-scope apology. -/
def outOfScopeReply : Str :=
  "I".toList ++ [apos] ++ "m sorry, I can".toList ++ [apos]
    ++ "t help with that. I am forwarding this to a human agent.".toList

/-- Reply of line 291: ask for the city. -/
def askCityReply : Str :=
  "I can definitely help you find hospitals, but I need to know the city. In which city are you looking for hospitals?".toList

/-- Reply of line 314: ask to repeat the hospital name. -/
def repeatNameReply : Str :=
  "I found several similar names. Can you please repeat the full hospital name and city?".toList

/-- Reply of line 320: ask which city the hospital is in. -/
def whichCityReply : Str :=
  "I have found hospitals with this name in multiple locations. In which city are you looking for this hospital?".toList

/-- Reply of line 342: the generic capability explanation. -/
def fallbackReply : Str :=
  "I can help you find hospitals in a city or confirm if a specific hospital in a city is in your network.".toList

/-- The greeting prefix of line 339 for a first message. -/
def introPrefix : Str :=
  "Hi, I am Loop AI, your hospital network assistant. ".toList

/-- Reply of line 348: the generic internal-failure reply. -/
def somethingWrongReply : Str :=
  "Sorry, something went wrong while processing your request.".toList

/-- One numbered line of the nearby-hospitals listing (line 303). -/
def formatLine (ih : Nat × Hospital) : Str :=
  natToStr (ih.1 + 1) ++ ". ".toList ++ ih.2.name ++ ", ".toList ++ ih.2.address
    ++ ", ".toList ++ ih.2.city

/-- Lines 280-344 of `handleQuery`: route the (already upgraded) query info
to a reply. -/
def respond (hospitals : List Hospital) (info : QueryInfo) (isFirstMessage : Bool) : DialogueResult :=
  if info.outOfScope ∨ info.intent = .OUT_OF_SCOPE then
    { reply := outOfScopeReply, endConversation := true }
  else if info.intent = .FIND_NEARBY then
    if info.city = [] then { reply := askCityReply, endConversation := false }
    else
      let results := searchHospitalsAroundCity hospitals info.city
        (if info.maxResults = 0 then 3 else info.maxResults)
      if results = [] then
        { reply := "I could not find any hospitals in our network for ".toList
            ++ info.city ++ ".".toList,
          endConversation := false }
      else
        { reply := "Here are ".toList ++ natToStr results.length
            ++ " hospitals around ".toList ++ info.city ++ ": ".toList
            ++ joinSep (" ".toList) (results.enum.map formatLine),
          endConversation := false }
  else if info.intent = .CONFIRM_IN_NETWORK then
    if info.hospitalName = [] then { reply := repeatNameReply, endConversation := false }
    else if info.city = [] then { reply := whichCityReply, endConversation := false }
    else
      let found := findHospitalInCityByName hospitals info.hospitalName info.city
      if 0 < found.length then
        { reply := "Yes, ".toList ++ info.hospitalName ++ " in ".toList ++ info.city
            ++ " is in your Loop network.".toList,
          endConversation := false }
      else
        { reply := "I could not find ".toList ++ info.hospitalName ++ " in ".toList
            ++ info.city ++ " in your Loop network.".toList,
          endConversation := false }
  else
    { reply := (if isFirstMessage then introPrefix else []) ++ fallbackReply,
      endConversation := false }

/-- The body of the `try` block of `handleQuery` (lines 267-344), as a
fallible computation.  In this model no step of the body itself throws, so
it always returns `.ok`; the `Except` type records where a thrown error
would surface. -/
def handleBody (hospitals : List Hospital) (lm : Option (Except Str LMParsed))
    (userText : Str) (isFirstMessage : Bool) : Except Str DialogueResult :=
  .ok (respond hospitals (upgradeIntent (extractQueryInfo lm userText)) isFirstMessage)

/-- The `try`/`catch` of lines 267 and 345-351: a thrown error anywhere in
the body becomes the generic apologetic reply with the conversation kept
alive. -/
def tryCatchDialogue (body : Except Str DialogueResult) : DialogueResult :=
  match body with
  | .ok r => r
  | .error _ => { reply := somethingWrongReply, endConversation := false }

/-- `handleQuery(userText, isFirstMessage)` — the Dialogue Responder.  Empty
or whitespace-only input short-circuits to the greeting before the `try`
block; everything else runs the body under the catch-all. -/
def handleQuery (hospitals : List Hospital) (lm : Option (Except Str LMParsed))
    (userText : Str) (isFirstMessage : Bool) : DialogueResult :=
  if jsTrim userText = [] then { reply := greetingReply, endConversation := false }
  else tryCatchDialogue (handleBody hospitals lm userText isFirstMessage)

/-! ## Concrete fixtures used by the theorems -/

/-- The spec's confirmation example utterance. -/
def confirmApolloUtterance : Str :=
  "confirm if Apollo Hospital in Chennai is in my network".toList

/-- A Directory record named "Apollo Hospital" in "Chennai". -/
def apolloChennai : Hospital :=
  { name := "Apollo Hospital".toList, address := "21 Greams Lane".toList,
    city := "Chennai".toList }

/-- A Directory containing exactly the Apollo Chennai record. -/
def apolloDirectory : List Hospital := [apolloChennai]

/-- The spec's nearby-search example utterance. -/
def findNearbyUtterance : Str := "find hospitals around Bangalore".toList

/-- The city literal extracted by the known-city fallback for that utterance. -/
def bangaloreCityLit : Str := "Bangalore".toList

/-- A Directory with three Bangalore records. -/
def bangaloreDemo : List Hospital :=
  [{ name := "Manipal Hospital".toList, address := "98 Rustom Bagh".toList,
     city := "Bangalore".toList },
   { name := "Fortis Hospital".toList, address := "154 Bannerghatta Road".toList,
     city := "Bangalore".toList },
   { name := "Apollo Hospital".toList, address := "21 Jayanagar".toList,
     city := "Bangalore".toList }]

/-- The spec's out-of-scope example utterance. -/
def bookUtterance : Str := "book an appointment for tomorrow".toList

/-- An utterance whose only hospital-name pattern match strips to the
two-character name "ab". -/
def confirmAbUtterance : Str := "confirm ab in network".toList

/-- A Directory with two Chennai records, used for the slice counterexample. -/
def chennaiPairDemo : List Hospital :=
  [{ name := "Apollo Hospital".toList, address := "21 Greams Lane".toList,
     city := "Chennai".toList },
   { name := "Fortis Malar".toList, address := "52 First Main Road".toList,
     city := "Chennai".toList }]

/-- A Directory record whose name field is empty. -/
def noNameRecord : Hospital :=
  { name := [], address := "12 MG Road".toList, city := "Delhi".toList }

/-- Whitespace-only input. -/
def wsOnlyText : Str := "   ".toList

/-! ## Theorems -/

/-- C1: the spec expects `"confirm if Apollo Hospital in Chennai is in my
network"` to yield the affirmative reply when the Directory holds a record
named "Apollo Hospital" in "Chennai".  The code disagrees: the generic
pattern `confirm <name> in` is tried before the dedicated
`confirm if <name> in` pattern and captures "if Apollo Hospital", whose
stripped length exceeds 2, so the loop stops, the substring lookup finds
nothing, and the negative reply is produced even though the record is
present.  This theorem evaluates the code at that failing input. -/
theorem c1_confirm_apollo_negative :
    (∃ r ∈ apolloDirectory, r.name = "Apollo Hospital".toList ∧ r.city = "Chennai".toList) ∧
    (naiveParse confirmApolloUtterance).hospitalName = "if Apollo Hospital".toList ∧
    handleQuery apolloDirectory none confirmApolloUtterance false =
      { reply := "I could not find if Apollo Hospital in Chennai in your Loop network.".toList,
        endConversation := false } := by
  decide

/-- C5 counterexample: on `"confirm ab in network"` the only matching name
pattern captures "ab", which strips to itself; the loop does not break, no
later pattern matches, and the returned `hospitalName` is the nonempty
two-character string "ab" — contradicting the claim that the returned name
is always empty or longer than 2 characters. -/
theorem c5_counterexample :
    ¬ ((naiveParse confirmAbUtterance).hospitalName = [] ∨
        2 < (naiveParse confirmAbUtterance).hospitalName.length) ∧
    (naiveParse confirmAbUtterance).hospitalName = "ab".toList := by
  decide

/-- Behaviour of the name-extraction loop: it either leaves the running
accumulator unchanged, or returns the stripped capture of one of the
patterns in the list. -/
theorem scanNames_cases (u : Str) :
    ∀ (ps : List RE) (acc : Str),
      scanNames u ps acc = acc ∨
      ∃ p ∈ ps, ∃ g, matchGroup1 p u = some g ∧ g ≠ [] ∧ nameStrip g = scanNames u ps acc := by
  intro ps
  induction ps with
  | nil => intro acc; exact Or.inl rfl
  | cons p rest ih =>
    intro acc
    rcases hm : matchGroup1 p u with _ | g
    · simp only [scanNames, hm]
      rcases ih acc with h | ⟨q, hq, g, h1, h2, h3⟩
      · exact Or.inl h
      · exact Or.inr ⟨q, List.mem_cons_of_mem _ hq, g, h1, h2, h3⟩
    · simp only [scanNames, hm]
      by_cases hg : g = []
      · rw [if_neg (by simpa using hg)]
        rcases ih acc with h | ⟨q, hq, g2, h1, h2, h3⟩
        · exact Or.inl h
        · exact Or.inr ⟨q, List.mem_cons_of_mem _ hq, g2, h1, h2, h3⟩
      · rw [if_pos hg]
        by_cases hcond : nameStrip g ≠ [] ∧ 2 < (nameStrip g).length
        · rw [if_pos hcond]
          exact Or.inr ⟨p, List.mem_cons_self _ _, g, hm, hg, rfl⟩
        · rw [if_neg hcond]
          rcases ih (nameStrip g) with h | ⟨q, hq, g2, h1, h2, h3⟩
          · exact Or.inr ⟨p, List.mem_cons_self _ _, g, hm, hg, h.symm⟩
          · exact Or.inr ⟨q, List.mem_cons_of_mem _ hq, g2, h1, h2, h3⟩

/-- C5 amended: the hospital name returned by the fallback parser is either
empty or the trimmed, stray-word-stripped capture of one of the name
patterns.  The first match whose stripped name is longer than 2 characters
stops the search, but when every match strips to 2 characters or fewer the
last such short name is still returned (see `c5_counterexample`). -/
theorem c5_name_from_some_pattern (u : Str) :
    (naiveParse u).hospitalName = [] ∨
    ∃ p ∈ namePatterns, ∃ g, matchGroup1 p u = some g ∧ g ≠ [] ∧
      nameStrip g = (naiveParse u).hospitalName := by
  have key : (naiveParse u).hospitalName = [] ∨
      (naiveParse u).hospitalName = scanNames u namePatterns [] := by
    by_cases ho : isOutOfScope u = true
    · simp [naiveParse, ho]
    · simp only [naiveParse, ho, Bool.false_eq_true, if_false]
      split
      · exact Or.inl (by simp)
      · split
        · exact Or.inr (by simp)
        · exact Or.inl (by simp)
  rcases key with h | h
  · exact Or.inl h
  · rw [h]
    rcases scanNames_cases u namePatterns [] with h2 | h2
    · exact Or.inl h2
    · exact Or.inr h2

/-- C6: "book an appointment for tomorrow" contains the off-topic keywords
"book" and "appointment" and no hospital-domain keyword, so the fallback
parser classifies it `OUT_OF_SCOPE` and `handleQuery` answers with the
apology and ends the conversation, whatever the Directory and first-turn
flag are. -/
theorem c6_book_out_of_scope (hospitals : List Hospital) (isFirstMessage : Bool) :
    (naiveParse bookUtterance).intent = .OUT_OF_SCOPE ∧
    handleQuery hospitals none bookUtterance isFirstMessage =
      { reply := outOfScopeReply, endConversation := true } := by
  refine ⟨by decide, ?_⟩
  have h1 : upgradeIntent (extractQueryInfo none bookUtterance) =
      { intent := .OUT_OF_SCOPE, city := [], hospitalName := [],
        maxResults := 3, outOfScope := true } := by decide
  unfold handleQuery
  rw [if_neg (by decide)]
  unfold handleBody
  rw [h1]
  rfl

/-- C9: the Dialogue Responder is a pure function of the utterance, the
first-turn flag and the Directory: two invocations on equal inputs (with no
language-model credential) return equal results. -/
theorem c9_handleQuery_deterministic (h1 h2 : List Hospital) (u1 u2 : Str) (f1 f2 : Bool)
    (hh : h1 = h2) (hu : u1 = u2) (hf : f1 = f2) :
    handleQuery h1 none u1 f1 = handleQuery h2 none u2 f2 := by
  subst hh
  subst hu
  subst hf
  rfl

/-- Witness for C9 at a concrete input. -/
theorem c9_witness :
    handleQuery [] none ("hi there".toList) false = handleQuery [] none ("hi there".toList) false :=
  c9_handleQuery_deterministic [] [] ("hi there".toList) ("hi there".toList) false false rfl rfl rfl

/-- The fallback parser keeps the two out-of-scope indicators consistent. -/
theorem naiveParse_flag_iff (u : Str) :
    (naiveParse u).outOfScope = true ↔ (naiveParse u).intent = .OUT_OF_SCOPE := by
  by_cases ho : isOutOfScope u = true
  · simp [naiveParse, ho]
  · simp only [naiveParse, ho, Bool.false_eq_true, if_false]
    constructor
    · intro h
      exact absurd h (by simp)
    · intro h
      exfalso
      revert h
      split
      · simp
      · split <;> simp

/-- C10: on both interpreter paths — a successful language-model parse, and
the local fallback (taken when there is no credential or the call fails) —
the produced `QueryInfo` has `outOfScope = true` exactly when its intent is
`OUT_OF_SCOPE`. -/
theorem c10_outofscope_consistent (lm : Option (Except Str LMParsed)) (u : Str) :
    (extractQueryInfo lm u).outOfScope = true ↔ (extractQueryInfo lm u).intent = .OUT_OF_SCOPE := by
  cases lm with
  | none => exact naiveParse_flag_iff u
  | some r =>
    cases r with
    | error e => exact naiveParse_flag_iff u
    | ok p =>
      show decide (p.intent = .OUT_OF_SCOPE) = true ↔ p.intent = .OUT_OF_SCOPE
      exact ⟨of_decide_eq_true, fun h => decide_eq_true h⟩

/-- C2 counterexample: the claim quantifies over every integer `n`, but a
negative limit reaches JavaScript `slice(0, n)`, which counts from the end:
with two Chennai records and `n = -1` the search returns one record, which
is not "at most n".  Separately, for the empty city the code returns `[]`
even though every record matches the empty substring, so the result is not
"the first n such matches". -/
theorem c2_counterexample :
    (searchHospitalsAroundCity chennaiPairDemo ("Chennai".toList) (-1)).length = 1 ∧
    ¬ (((searchHospitalsAroundCity chennaiPairDemo ("Chennai".toList) (-1)).length : Int) ≤ -1) ∧
    searchHospitalsAroundCity chennaiPairDemo [] 1 = [] ∧
    (chennaiPairDemo.filter
        (fun r => jsIncludes (jsToUpper r.city) (jsToUpper ([] : Str)))).take ((1 : Int)).toNat
      ≠ [] := by
  decide

/-- C2 amended: for every nonnegative limit `n`, `searchHospitalsAroundCity`
returns at most `n` records, every returned record's city contains the
query city case-insensitively, the empty city yields the empty result, and
for a nonempty city the result is exactly the first `n` matches in source
order. -/
theorem c2_searchNearCity_spec (hospitals : List Hospital) (c : Str) (n : Int) (hn : 0 ≤ n) :
    ((searchHospitalsAroundCity hospitals c n).length : Int) ≤ n ∧
    (∀ r ∈ searchHospitalsAroundCity hospitals c n,
      jsIncludes (jsToUpper r.city) (jsToUpper c) = true) ∧
    (c = [] → searchHospitalsAroundCity hospitals c n = []) ∧
    (c ≠ [] → searchHospitalsAroundCity hospitals c n =
      (hospitals.filter (fun r => jsIncludes (jsToUpper r.city) (jsToUpper c))).take n.toNat) := by
  by_cases hc : c = []
  · subst hc
    have hempty : searchHospitalsAroundCity hospitals [] n = [] := rfl
    refine ⟨?_, ?_, fun _ => rfl, fun h => absurd rfl h⟩
    · rw [hempty]
      simpa using hn
    · intro r hr
      rw [hempty] at hr
      cases hr
  · have hs : searchHospitalsAroundCity hospitals c n =
        (hospitals.filter (fun r => jsIncludes (jsToUpper r.city) (jsToUpper c))).take n.toNat := by
      unfold searchHospitalsAroundCity
      rw [if_neg hc]
      show jsSliceTo (hospitals.filter (fun r => jsIncludes (jsToUpper r.city) (jsToUpper c))) n = _
      unfold jsSliceTo
      rw [if_neg (not_lt.mpr hn)]
    refine ⟨?_, ?_, fun h => absurd h hc, fun _ => hs⟩
    · rw [hs]
      have h1 := List.length_take_le n.toNat
        (hospitals.filter (fun r => jsIncludes (jsToUpper r.city) (jsToUpper c)))
      omega
    · intro r hr
      rw [hs] at hr
      have hr2 : r ∈ hospitals.filter (fun r => jsIncludes (jsToUpper r.city) (jsToUpper c)) :=
        List.take_subset _ _ hr
      exact (List.mem_filter.mp hr2).2

/-- Witness for C2 at a concrete Directory, city and limit. -/
theorem c2_witness :
    ((searchHospitalsAroundCity chennaiPairDemo ("Chennai".toList) 1).length : Int) ≤ 1 :=
  (c2_searchNearCity_spec chennaiPairDemo ("Chennai".toList) 1 (by decide)).1

/-- C3 counterexample: a Directory record with an empty name field is hit by
the falsy-argument guard of `findHospitalInCityByName`, so querying with
that record's exact (empty) name and exact city returns no records at
all — the claim fails for such records. -/
theorem c3_counterexample :
    noNameRecord ∈ [noNameRecord] ∧
    noNameRecord ∉ findHospitalInCityByName [noNameRecord] noNameRecord.name noNameRecord.city := by
  decide

/-- A list is always a prefix of itself (boolean version). -/
theorem isPrefixOf_self_eq_true (l : Str) : l.isPrefixOf l = true := by
  induction l with
  | nil => rfl
  | cons c rest ih => simp [List.isPrefixOf, ih]

/-- A string always contains itself as a substring. -/
theorem jsIncludes_self (l : Str) : jsIncludes l l = true := by
  cases l with
  | nil => rfl
  | cons c rest =>
    unfold jsIncludes
    rw [isPrefixOf_self_eq_true]
    rfl

/-- C3 amended: every Directory record whose name and city fields are both
nonempty is returned by `findHospitalInCityByName` when queried with its
exact name and exact city in any letter case (modelled as equality of the
uppercased strings).  Records with an empty name or city hit the falsy
guard instead (see `c3_counterexample`). -/
theorem c3_find_returns_record (hospitals : List Hospital) (r : Hospital) (qn qc : Str)
    (hmem : r ∈ hospitals)
    (hqn : jsToUpper qn = jsToUpper r.name) (hqc : jsToUpper qc = jsToUpper r.city)
    (hname : r.name ≠ []) (hcity : r.city ≠ []) :
    r ∈ findHospitalInCityByName hospitals qn qc := by
  have hqn0 : qn ≠ [] := by
    intro h
    apply hname
    have h2 : jsToUpper r.name = [] := by rw [← hqn, h]; rfl
    exact List.map_eq_nil_iff.mp h2
  have hqc0 : qc ≠ [] := by
    intro h
    apply hcity
    have h2 : jsToUpper r.city = [] := by rw [← hqc, h]; rfl
    exact List.map_eq_nil_iff.mp h2
  unfold findHospitalInCityByName
  rw [if_neg (by push_neg; exact ⟨hqn0, hqc0⟩)]
  show r ∈ hospitals.filter (fun h =>
    jsIncludes (jsToUpper h.name) (jsToUpper qn) && jsIncludes (jsToUpper h.city) (jsToUpper qc))
  refine List.mem_filter.mpr ⟨hmem, ?_⟩
  show (jsIncludes (jsToUpper r.name) (jsToUpper qn)
      && jsIncludes (jsToUpper r.city) (jsToUpper qc)) = true
  rw [hqn, hqc, jsIncludes_self, jsIncludes_self]
  rfl

/-- Witness for C3: the Apollo record is found by its name in upper case and
its city in lower case. -/
theorem c3_witness :
    apolloChennai ∈ findHospitalInCityByName apolloDirectory
      ("APOLLO HOSPITAL".toList) ("chennai".toList) :=
  c3_find_returns_record apolloDirectory apolloChennai
    ("APOLLO HOSPITAL".toList) ("chennai".toList)
    (by decide) (by decide) (by decide) (by decide) (by decide)

/-- Filtering with a stronger predicate keeps at most as many elements. -/
theorem length_filter_le_of_imp {α : Type} (p q : α → Bool)
    (hpq : ∀ a, p a = true → q a = true) :
    ∀ l : List α, (l.filter p).length ≤ (l.filter q).length := by
  intro l
  induction l with
  | nil => simp
  | cons a t ih =>
    simp only [List.filter_cons]
    by_cases hp : p a = true
    · rw [if_pos hp, if_pos (hpq a hp)]
      simpa using ih
    · rw [if_neg hp]
      by_cases hq : q a = true
      · rw [if_pos hq]
        exact le_trans ih (by simp)
      · rw [if_neg hq]
        exact ih

/-- C4: with no credential, "find hospitals around Bangalore" is parsed as
`FIND_NEARBY` with city "Bangalore" via the known-city fallback, and when
the Directory holds at least three records whose city is exactly
"Bangalore", `handleQuery` lists exactly the first three matches, each line
formatted as `"<n>. <name>, <address>, <city>"`, joined into one sentence
prefixed by the count and city, with the conversation kept open. -/
theorem c4_find_nearby_roundtrip (hospitals : List Hospital) (isFirstMessage : Bool)
    (h3 : 3 ≤ (hospitals.filter (fun r => r.city = bangaloreCityLit)).length) :
    (searchHospitalsAroundCity hospitals bangaloreCityLit 3).length = 3 ∧
    handleQuery hospitals none findNearbyUtterance isFirstMessage =
      { reply := "Here are 3 hospitals around Bangalore: ".toList
          ++ joinSep (" ".toList)
            ((searchHospitalsAroundCity hospitals bangaloreCityLit 3).enum.map formatLine),
        endConversation := false } := by
  have hfilter : ∀ r : Hospital, (decide (r.city = bangaloreCityLit)) = true →
      jsIncludes (jsToUpper r.city) (jsToUpper bangaloreCityLit) = true := by
    intro r hr
    have h2 : r.city = bangaloreCityLit := of_decide_eq_true hr
    rw [h2]
    decide
  have hmono := length_filter_le_of_imp _ _ hfilter hospitals
  have hflen : 3 ≤
      (hospitals.filter (fun r => jsIncludes (jsToUpper r.city) (jsToUpper bangaloreCityLit))).length :=
    le_trans h3 hmono
  have hsearch : searchHospitalsAroundCity hospitals bangaloreCityLit 3 =
      (hospitals.filter (fun r => jsIncludes (jsToUpper r.city) (jsToUpper bangaloreCityLit))).take 3 :=
    rfl
  have hlen : (searchHospitalsAroundCity hospitals bangaloreCityLit 3).length = 3 := by
    rw [hsearch, List.length_take]
    exact min_eq_left hflen
  refine ⟨hlen, ?_⟩
  have hne : searchHospitalsAroundCity hospitals bangaloreCityLit 3 ≠ [] := by
    intro he
    rw [he] at hlen
    exact absurd hlen (by decide)
  have hinfo : upgradeIntent (extractQueryInfo none findNearbyUtterance) =
      { intent := .FIND_NEARBY, city := bangaloreCityLit, hospitalName := [],
        maxResults := 3, outOfScope := false } := by decide
  have hq : handleQuery hospitals none findNearbyUtterance isFirstMessage =
      respond hospitals
        { intent := .FIND_NEARBY, city := bangaloreCityLit, hospitalName := [],
          maxResults := 3, outOfScope := false } isFirstMessage := by
    unfold handleQuery
    rw [if_neg (by decide)]
    unfold handleBody
    rw [hinfo]
    rfl
  rw [hq]
  have hresp : respond hospitals
      { intent := .FIND_NEARBY, city := bangaloreCityLit, hospitalName := [],
        maxResults := 3, outOfScope := false } isFirstMessage =
      (if searchHospitalsAroundCity hospitals bangaloreCityLit 3 = [] then
        { reply := "I could not find any hospitals in our network for ".toList
            ++ bangaloreCityLit ++ ".".toList,
          endConversation := false }
       else
        { reply := "Here are ".toList
            ++ natToStr (searchHospitalsAroundCity hospitals bangaloreCityLit 3).length
            ++ " hospitals around ".toList ++ bangaloreCityLit ++ ": ".toList
            ++ joinSep (" ".toList)
              ((searchHospitalsAroundCity hospitals bangaloreCityLit 3).enum.map formatLine),
          endConversation := false }) := rfl
  rw [hresp, if_neg hne, hlen]
  rfl

/-- Witness for C4 at a three-record Bangalore Directory. -/
theorem c4_witness :
    (searchHospitalsAroundCity bangaloreDemo bangaloreCityLit 3).length = 3 ∧
    handleQuery bangaloreDemo none findNearbyUtterance false =
      { reply := "Here are 3 hospitals around Bangalore: ".toList
          ++ joinSep (" ".toList)
            ((searchHospitalsAroundCity bangaloreDemo bangaloreCityLit 3).enum.map formatLine),
        endConversation := false } :=
  c4_find_nearby_roundtrip bangaloreDemo false (by decide)

/-- A list with a nonempty left part is nonempty after appending. -/
theorem append_ne_nil_of_left {l : Str} (m : Str) (h : l ≠ []) : l ++ m ≠ [] := by
  cases l with
  | nil => exact absurd rfl h
  | cons c rest => simp

/-- A list with a nonempty right part is nonempty after appending. -/
theorem append_ne_nil_of_right (l : Str) {m : Str} (h : m ≠ []) : l ++ m ≠ [] := by
  intro he
  exact h (List.append_eq_nil.mp he).2

/-- Every branch of the Dialogue Responder produces a nonempty reply. -/
theorem respond_reply_ne_nil (hospitals : List Hospital) (info : QueryInfo) (f : Bool) :
    (respond hospitals info f).reply ≠ [] := by
  unfold respond
  by_cases h1 : info.outOfScope = true ∨ info.intent = .OUT_OF_SCOPE
  · rw [if_pos h1]; decide
  · rw [if_neg h1]
    by_cases h2 : info.intent = .FIND_NEARBY
    · rw [if_pos h2]
      by_cases h3 : info.city = []
      · rw [if_pos h3]; decide
      · rw [if_neg h3]
        dsimp only
        split
        · split
          · repeat apply append_ne_nil_of_left
            decide
          · repeat apply append_ne_nil_of_left
            decide
        · split
          · repeat apply append_ne_nil_of_left
            decide
          · repeat apply append_ne_nil_of_left
            decide
    · rw [if_neg h2]
      by_cases h4 : info.intent = .CONFIRM_IN_NETWORK
      · rw [if_pos h4]
        by_cases h5 : info.hospitalName = []
        · rw [if_pos h5]; decide
        · rw [if_neg h5]
          by_cases h6 : info.city = []
          · rw [if_pos h6]; decide
          · rw [if_neg h6]
            dsimp only
            split
            · repeat apply append_ne_nil_of_left
              decide
            · repeat apply append_ne_nil_of_left
              decide
      · rw [if_neg h4]
        exact append_ne_nil_of_right _ (by decide)

/-- C7: with no language-model credential, `handleQuery` is a total
function into complete `DialogueResult`s (no exception can escape the
model), its reply is never empty, and empty or whitespace-only input
short-circuits to the greeting with the conversation kept open. -/
theorem c7_empty_input_greeting (hospitals : List Hospital) (u : Str) (f : Bool) :
    (jsTrim u = [] → handleQuery hospitals none u f =
      { reply := greetingReply, endConversation := false }) ∧
    (handleQuery hospitals none u f).reply ≠ [] := by
  by_cases he : jsTrim u = []
  · constructor
    · intro _
      unfold handleQuery
      rw [if_pos he]
    · unfold handleQuery
      rw [if_pos he]
      decide
  · refine ⟨fun h => absurd h he, ?_⟩
    unfold handleQuery
    rw [if_neg he]
    show (respond hospitals (upgradeIntent (extractQueryInfo none u)) f).reply ≠ []
    exact respond_reply_ne_nil hospitals _ f

/-- Witness for C7 at whitespace-only input. -/
theorem c7_witness :
    handleQuery [] none wsOnlyText false = { reply := greetingReply, endConversation := false } :=
  (c7_empty_input_greeting [] wsOnlyText false).1 (by decide)

/-- C8: the top-level `try`/`catch` of `handleQuery` converts any failure
raised by the dialogue-handling pipeline (which runs only after the
empty-input check) into the single generic "something went wrong" reply
with the conversation kept open; `handleQuery` itself returns a
`DialogueResult` and never propagates an error. -/
theorem c8_catch_converts_errors :
    (∀ e : Str, tryCatchDialogue (.error e) =
      { reply := somethingWrongReply, endConversation := false }) ∧
    (∀ (hospitals : List Hospital) (lm : Option (Except Str LMParsed)) (u : Str) (f : Bool),
      jsTrim u ≠ [] →
        handleQuery hospitals lm u f = tryCatchDialogue (handleBody hospitals lm u f)) := by
  refine ⟨fun e => rfl, fun hospitals lm u f hne => ?_⟩
  unfold handleQuery
  rw [if_neg hne]

/-- Witness for C8: a concrete raised error is converted to the generic
reply, and a concrete nonempty input goes through the catch wrapper. -/
theorem c8_witness :
    tryCatchDialogue (.error ("boom".toList)) =
      { reply := somethingWrongReply, endConversation := false } ∧
    handleQuery [] none ("hi".toList) false = tryCatchDialogue (handleBody [] none ("hi".toList) false) :=
  ⟨c8_catch_converts_errors.1 ("boom".toList),
   c8_catch_converts_errors.2 [] none ("hi".toList) false (by decide)⟩
